import Mathlib

/-!
Shallow embedding of `WFucom.py` (WallisFutunaCommuneFinanceAnalyzer):
the synthetic municipal-finance time-series generator for the
Wallis-et-Futuna subdivisions.

Python floats are modelled as exact rationals (`ℚ`); every numeric
constant below is the exact decimal literal of the source.  The
unseeded normal noise draws (`np.random.normal(1, σ)`, one independent
draw per metric per year) are modelled by explicit noise streams
`ℕ → ℚ` (year index ↦ draw), gathered in a `Noise` record with one
stream per noisy metric; the all-ones record models "noise disabled".
-/

namespace WFucom

/-- The `type` field of a configuration (`"chef_lieu"`, `"district"`,
`"district_futuna"` in the source). -/
inductive CommuneType where
  | chef_lieu
  | district
  | district_futuna
deriving DecidableEq, Repr

/-- One configuration record of the `configs` dict in
`_get_commune_config` (lines 21-69). -/
structure Config where
  population_base : ℚ
  budget_base : ℚ
  type : CommuneType
  specialites : List String
deriving DecidableEq, Repr

/-- The `"default"` entry of the `configs` dict (lines 61-66). -/
def default_config : Config :=
  { population_base := 2000
    budget_base := 30
    type := CommuneType.district
    specialites := ["agriculture", "peche", "artisanat", "services_locaux"] }

/-- The `configs` dict literal of `_get_commune_config` (lines 23-67),
as an association list in source order (the `"default"` key included). -/
def configs : List (String × Config) :=
  [("Mata-Utu",
    { population_base := 1200
      budget_base := 35
      type := CommuneType.chef_lieu
      specialites := ["administration", "commerce", "port", "tourisme", "services"] }),
   ("Hahake",
    { population_base := 2500
      budget_base := 30
      type := CommuneType.district
      specialites := ["agriculture", "elevage", "artisanat", "culture"] }),
   ("Hihifo",
    { population_base := 1800
      budget_base := 28
      type := CommuneType.district
      specialites := ["peche", "agriculture", "tourisme", "patrimoine"] }),
   ("Mua",
    { population_base := 2200
      budget_base := 32
      type := CommuneType.district
      specialites := ["agriculture", "elevage", "artisanat", "services"] }),
   ("Sigave",
    { population_base := 1500
      budget_base := 28
      type := CommuneType.district_futuna
      specialites := ["peche", "agriculture", "culture", "artisanat"] }),
   ("Alo",
    { population_base := 2000
      budget_base := 30
      type := CommuneType.district_futuna
      specialites := ["agriculture", "elevage", "peche", "tourisme"] }),
   ("default", default_config)]

/-- `_get_commune_config` (line 69): `configs.get(self.commune, configs["default"])`. -/
def get_commune_config (commune : String) : Config :=
  (configs.lookup commune).getD default_config

/-- `self.start_year = 2002` (line 15). -/
def start_year : ℕ := 2002

/-- `self.end_year = 2025` (line 16). -/
def end_year : ℕ := 2025

/-- Number of yearly rows produced by
`pd.date_range('2002-01-01', '2025-12-31', freq='Y')`: one year-end
date per calendar year, 2002..2025 inclusive. -/
def num_years : ℕ := end_year - start_year + 1

/-- The calendar year of row index `i` (`date.year` of the `i`-th date). -/
def year_of (i : ℕ) : ℕ := start_year + i

/-- `_simulate_population` (lines 120-137): no noise draw. -/
def simulate_population (config : Config) (i : ℕ) : ℚ :=
  let growth_rate : ℚ :=
    match config.type with
    | CommuneType.chef_lieu => 0.01
    | CommuneType.district_futuna => 0.008
    | CommuneType.district => 0.009
  config.population_base * (1 + growth_rate * i)

/-- `_simulate_households` (lines 139-148): no noise draw. -/
def simulate_households (config : Config) (i : ℕ) : ℚ :=
  (config.population_base / 4.5) * (1 + 0.008 * i)

/-- `_simulate_total_revenue` (lines 150-168). -/
def simulate_total_revenue (config : Config) (noise : ℕ → ℚ) (i : ℕ) : ℚ :=
  let growth_rate : ℚ :=
    match config.type with
    | CommuneType.chef_lieu => 0.028
    | CommuneType.district_futuna => 0.025
    | CommuneType.district => 0.026
  config.budget_base * (1 + growth_rate * i) * noise i

/-- `_simulate_tax_revenue` (lines 170-180). -/
def simulate_tax_revenue (config : Config) (noise : ℕ → ℚ) (i : ℕ) : ℚ :=
  (config.budget_base * 0.25) * (1 + 0.015 * i) * noise i

/-- `_simulate_state_grants` (lines 182-197). -/
def simulate_state_grants (config : Config) (noise : ℕ → ℚ) (i : ℕ) : ℚ :=
  let increase : ℚ :=
    if 2010 ≤ year_of i then 1 + 0.012 * ((year_of i : ℚ) - 2010) else 1
  (config.budget_base * 0.55) * increase * noise i

/-- `_simulate_territorial_grants` (lines 199-214). -/
def simulate_territorial_grants (config : Config) (noise : ℕ → ℚ) (i : ℕ) : ℚ :=
  let increase : ℚ :=
    if 2005 ≤ year_of i then 1 + 0.01 * ((year_of i : ℚ) - 2005) else 1
  (config.budget_base * 0.12) * increase * noise i

/-- `_simulate_other_revenue` (lines 216-226). -/
def simulate_other_revenue (config : Config) (noise : ℕ → ℚ) (i : ℕ) : ℚ :=
  (config.budget_base * 0.08) * (1 + 0.018 * i) * noise i

/-- `_simulate_total_expenses` (lines 228-238). -/
def simulate_total_expenses (config : Config) (noise : ℕ → ℚ) (i : ℕ) : ℚ :=
  (config.budget_base * 0.98) * (1 + 0.026 * i) * noise i

/-- `_simulate_operating_expenses` (lines 240-250). -/
def simulate_operating_expenses (config : Config) (noise : ℕ → ℚ) (i : ℕ) : ℚ :=
  (config.budget_base * 0.68) * (1 + 0.024 * i) * noise i

/-- `_simulate_investment_expenses` (lines 252-270). -/
def simulate_investment_expenses (config : Config) (noise : ℕ → ℚ) (i : ℕ) : ℚ :=
  let multiplier : ℚ :=
    if year_of i ∈ [2006, 2012, 2018, 2023] then 1.6
    else if year_of i ∈ [2008, 2014, 2020] then 0.8
    else 1.0
  (config.budget_base * 0.30) * (1 + 0.022 * i) * multiplier * noise i

/-- `_simulate_debt_charges` (lines 272-287). -/
def simulate_debt_charges (config : Config) (noise : ℕ → ℚ) (i : ℕ) : ℚ :=
  let increase : ℚ :=
    if 2005 ≤ year_of i then 1 + 0.009 * ((year_of i : ℚ) - 2005) else 1
  (config.budget_base * 0.06) * increase * noise i

/-- `_simulate_staff_costs` (lines 289-299). -/
def simulate_staff_costs (config : Config) (noise : ℕ → ℚ) (i : ℕ) : ℚ :=
  (config.budget_base * 0.48) * (1 + 0.026 * i) * noise i

/-- `_simulate_gross_savings` (lines 301-316). -/
def simulate_gross_savings (config : Config) (noise : ℕ → ℚ) (i : ℕ) : ℚ :=
  let improvement : ℚ :=
    if 2010 ≤ year_of i then 1 + 0.007 * ((year_of i : ℚ) - 2010) else 1
  (config.budget_base * 0.02) * improvement * noise i

/-- `_simulate_total_debt` (lines 318-335): no linear growth term. -/
def simulate_total_debt (config : Config) (noise : ℕ → ℚ) (i : ℕ) : ℚ :=
  let change : ℚ :=
    if year_of i ∈ [2006, 2012, 2018, 2023] then 1.25
    else if year_of i ∈ [2009, 2015, 2021] then 0.92
    else 1.0
  (config.budget_base * 0.75) * change * noise i

/-- `_simulate_debt_ratio` (lines 337-352): fixed base `0.70`,
independent of the configuration. -/
def simulate_debt_ratio (noise : ℕ → ℚ) (i : ℕ) : ℚ :=
  let improvement : ℚ :=
    if 2010 ≤ year_of i then 1 - 0.01 * ((year_of i : ℚ) - 2010) else 1
  0.70 * improvement * noise i

/-- `_simulate_tax_rate` (lines 354-369): fixed base `0.80`,
independent of the configuration. -/
def simulate_tax_rate (noise : ℕ → ℚ) (i : ℕ) : ℚ :=
  let increase : ℚ :=
    if 2010 ≤ year_of i then 1 + 0.004 * ((year_of i : ℚ) - 2010) else 1
  0.80 * increase * noise i

/-- `_simulate_agriculture_investment` (lines 371-390). -/
def simulate_agriculture_investment (config : Config) (noise : ℕ → ℚ) (i : ℕ) : ℚ :=
  let multiplier : ℚ := if "agriculture" ∈ config.specialites then 1.5 else 0.8
  let year_multiplier : ℚ := if year_of i ∈ [2005, 2010, 2015, 2020] then 1.8 else 1.0
  (config.budget_base * 0.07) * (1 + 0.026 * i) * year_multiplier * multiplier * noise i

/-- `_simulate_fishing_investment` (lines 392-411). -/
def simulate_fishing_investment (config : Config) (noise : ℕ → ℚ) (i : ℕ) : ℚ :=
  let multiplier : ℚ := if "peche" ∈ config.specialites then 1.6 else 0.7
  let year_multiplier : ℚ := if year_of i ∈ [2007, 2013, 2019, 2024] then 1.7 else 1.0
  (config.budget_base * 0.06) * (1 + 0.028 * i) * year_multiplier * multiplier * noise i

/-- `_simulate_transport_investment` (lines 413-432). -/
def simulate_transport_investment (config : Config) (noise : ℕ → ℚ) (i : ℕ) : ℚ :=
  let multiplier : ℚ := if "transport" ∈ config.specialites then 1.4 else 0.9
  let year_multiplier : ℚ := if year_of i ∈ [2006, 2012, 2018, 2023] then 1.6 else 1.0
  (config.budget_base * 0.05) * (1 + 0.024 * i) * year_multiplier * multiplier * noise i

/-- `_simulate_education_investment` (lines 434-453). -/
def simulate_education_investment (config : Config) (noise : ℕ → ℚ) (i : ℕ) : ℚ :=
  let multiplier : ℚ := if "education" ∈ config.specialites then 1.4 else 0.9
  let year_multiplier : ℚ := if year_of i ∈ [2008, 2014, 2020] then 1.6 else 1.0
  (config.budget_base * 0.06) * (1 + 0.027 * i) * year_multiplier * multiplier * noise i

/-- `_simulate_health_investment` (lines 455-474). -/
def simulate_health_investment (config : Config) (noise : ℕ → ℚ) (i : ℕ) : ℚ :=
  let multiplier : ℚ := if "sante" ∈ config.specialites then 1.5 else 0.9
  let year_multiplier : ℚ := if year_of i ∈ [2009, 2015, 2021] then 1.7 else 1.0
  (config.budget_base * 0.05) * (1 + 0.025 * i) * year_multiplier * multiplier * noise i

/-- `_simulate_culture_investment` (lines 476-495). -/
def simulate_culture_investment (config : Config) (noise : ℕ → ℚ) (i : ℕ) : ℚ :=
  let multiplier : ℚ := if "culture" ∈ config.specialites then 1.6 else 0.7
  let year_multiplier : ℚ := if year_of i ∈ [2010, 2016, 2022] then 1.7 else 1.0
  (config.budget_base * 0.04) * (1 + 0.023 * i) * year_multiplier * multiplier * noise i

/-- One noise stream (`ℕ → ℚ`, year index ↦ draw) per metric that draws
`np.random.normal(1, σ)` in the source.  `Population` and `Menages` draw
no noise, so they have no stream. -/
structure Noise where
  recettes_totales : ℕ → ℚ
  impots_locaux : ℕ → ℚ
  dotations_etat : ℕ → ℚ
  dotations_territoriales : ℕ → ℚ
  autres_recettes : ℕ → ℚ
  depenses_totales : ℕ → ℚ
  fonctionnement : ℕ → ℚ
  investissement : ℕ → ℚ
  charge_dette : ℕ → ℚ
  personnel : ℕ → ℚ
  epargne_brute : ℕ → ℚ
  dette_totale : ℕ → ℚ
  taux_endettement : ℕ → ℚ
  taux_fiscalite : ℕ → ℚ
  inv_agriculture : ℕ → ℚ
  inv_peche : ℕ → ℚ
  inv_transport : ℕ → ℚ
  inv_education : ℕ → ℚ
  inv_sante : ℕ → ℚ
  inv_culture : ℕ → ℚ

/-- All noise streams constant at `c`. -/
def Noise.const (c : ℚ) : Noise :=
  ⟨fun _ => c, fun _ => c, fun _ => c, fun _ => c, fun _ => c,
   fun _ => c, fun _ => c, fun _ => c, fun _ => c, fun _ => c,
   fun _ => c, fun _ => c, fun _ => c, fun _ => c, fun _ => c,
   fun _ => c, fun _ => c, fun _ => c, fun _ => c, fun _ => c⟩

/-- Noise disabled: every draw equals `1`. -/
def Noise.one : Noise := Noise.const 1

/-- One row of the generated `DataFrame`: the 23 columns built by
`generate_financial_data` (lines 79-111), in source insertion order. -/
structure Row where
  Annee : ℕ
  Population : ℚ
  Menages : ℚ
  Recettes_Totales : ℚ
  Impots_Locaux : ℚ
  Dotations_Etat : ℚ
  Dotations_Territoriales : ℚ
  Autres_Recettes : ℚ
  Depenses_Totales : ℚ
  Fonctionnement : ℚ
  Investissement : ℚ
  Charge_Dette : ℚ
  Personnel : ℚ
  Epargne_Brute : ℚ
  Dette_Totale : ℚ
  Taux_Endettement : ℚ
  Taux_Fiscalite : ℚ
  Investissement_Agriculture : ℚ
  Investissement_Peche : ℚ
  Investissement_Transport : ℚ
  Investissement_Education : ℚ
  Investissement_Sante : ℚ
  Investissement_Culture : ℚ

/-- The fixed column-name set of the generated table, in the insertion
order of the `data` dict (lines 79-111). -/
def columns : List String :=
  ["Annee", "Population", "Menages",
   "Recettes_Totales", "Impots_Locaux", "Dotations_Etat",
   "Dotations_Territoriales", "Autres_Recettes",
   "Depenses_Totales", "Fonctionnement", "Investissement",
   "Charge_Dette", "Personnel",
   "Epargne_Brute", "Dette_Totale", "Taux_Endettement", "Taux_Fiscalite",
   "Investissement_Agriculture", "Investissement_Peche",
   "Investissement_Transport", "Investissement_Education",
   "Investissement_Sante", "Investissement_Culture"]

/-- The cells of a row, one `(column name, value)` pair per column,
in column order (`Annee` rendered as a rational). -/
def Row.cells (r : Row) : List (String × ℚ) :=
  [("Annee", (r.Annee : ℚ)), ("Population", r.Population), ("Menages", r.Menages),
   ("Recettes_Totales", r.Recettes_Totales), ("Impots_Locaux", r.Impots_Locaux),
   ("Dotations_Etat", r.Dotations_Etat),
   ("Dotations_Territoriales", r.Dotations_Territoriales),
   ("Autres_Recettes", r.Autres_Recettes),
   ("Depenses_Totales", r.Depenses_Totales), ("Fonctionnement", r.Fonctionnement),
   ("Investissement", r.Investissement),
   ("Charge_Dette", r.Charge_Dette), ("Personnel", r.Personnel),
   ("Epargne_Brute", r.Epargne_Brute), ("Dette_Totale", r.Dette_Totale),
   ("Taux_Endettement", r.Taux_Endettement), ("Taux_Fiscalite", r.Taux_Fiscalite),
   ("Investissement_Agriculture", r.Investissement_Agriculture),
   ("Investissement_Peche", r.Investissement_Peche),
   ("Investissement_Transport", r.Investissement_Transport),
   ("Investissement_Education", r.Investissement_Education),
   ("Investissement_Sante", r.Investissement_Sante),
   ("Investissement_Culture", r.Investissement_Culture)]

/-- The row at index `i` of the `data` dict assembled by
`generate_financial_data` (lines 79-113), before `_add_municipal_trends`. -/
def mk_row (config : Config) (η : Noise) (i : ℕ) : Row where
  Annee := year_of i
  Population := simulate_population config i
  Menages := simulate_households config i
  Recettes_Totales := simulate_total_revenue config η.recettes_totales i
  Impots_Locaux := simulate_tax_revenue config η.impots_locaux i
  Dotations_Etat := simulate_state_grants config η.dotations_etat i
  Dotations_Territoriales := simulate_territorial_grants config η.dotations_territoriales i
  Autres_Recettes := simulate_other_revenue config η.autres_recettes i
  Depenses_Totales := simulate_total_expenses config η.depenses_totales i
  Fonctionnement := simulate_operating_expenses config η.fonctionnement i
  Investissement := simulate_investment_expenses config η.investissement i
  Charge_Dette := simulate_debt_charges config η.charge_dette i
  Personnel := simulate_staff_costs config η.personnel i
  Epargne_Brute := simulate_gross_savings config η.epargne_brute i
  Dette_Totale := simulate_total_debt config η.dette_totale i
  Taux_Endettement := simulate_debt_ratio η.taux_endettement i
  Taux_Fiscalite := simulate_tax_rate η.taux_fiscalite i
  Investissement_Agriculture := simulate_agriculture_investment config η.inv_agriculture i
  Investissement_Peche := simulate_fishing_investment config η.inv_peche i
  Investissement_Transport := simulate_transport_investment config η.inv_transport i
  Investissement_Education := simulate_education_investment config η.inv_education i
  Investissement_Sante := simulate_health_investment config η.inv_sante i
  Investissement_Culture := simulate_culture_investment config η.inv_culture i

/-- The body of the `_add_municipal_trends` loop (lines 497-529) for one
row: each `if` mutates only cells of the current row, keyed on the row's
year; the `2010 <= year <= 2015` branch is an `elif` of the
`2008 <= year <= 2009` branch, as in the source. -/
def apply_trends_row (r : Row) : Row :=
  let year := r.Annee
  let r :=
    if 2002 ≤ year ∧ year ≤ 2005 then
      { r with
        Investissement_Agriculture := r.Investissement_Agriculture * 1.4
        Investissement_Peche := r.Investissement_Peche * 1.3 }
    else r
  let r :=
    if 2008 ≤ year ∧ year ≤ 2009 then
      { r with
        Recettes_Totales := r.Recettes_Totales * 0.94
        Investissement := r.Investissement * 0.85
        Autres_Recettes := r.Autres_Recettes * 0.88 }
    else if 2010 ≤ year ∧ year ≤ 2015 then
      { r with
        Investissement_Education := r.Investissement_Education * 1.3
        Investissement_Sante := r.Investissement_Sante * 1.4 }
    else r
  let r :=
    if 2020 ≤ year ∧ year ≤ 2021 then
      if year = 2020 then
        { r with
          Autres_Recettes := r.Autres_Recettes * 0.78
          Dotations_Etat := r.Dotations_Etat * 1.15 }
      else r
    else r
  let r :=
    if 2022 ≤ year then
      { r with
        Investissement := r.Investissement * 1.14
        Investissement_Agriculture := r.Investissement_Agriculture * 1.12
        Investissement_Peche := r.Investissement_Peche * 1.10 }
    else r
  r

/-- `_add_municipal_trends` (lines 497-529): the row-wise pass over the
whole table (each iteration touches only its own row). -/
def add_municipal_trends (rows : List Row) : List Row :=
  rows.map apply_trends_row

/-- `generate_financial_data` (lines 71-118): assemble one row per year
of the fixed range, then apply `_add_municipal_trends`. -/
def generate_financial_data (config : Config) (η : Noise) : List Row :=
  add_municipal_trends ((List.range num_years).map (mk_row config η))

/-- The final row at index `i`: `mk_row` followed by the trends pass. -/
def row_at (config : Config) (η : Noise) (i : ℕ) : Row :=
  apply_trends_row (mk_row config η i)

/-! ### Frame lemmas for the shock-adjustment pass -/

lemma trends_frame_all (r : Row) :
    (apply_trends_row r).Annee = r.Annee ∧
    (apply_trends_row r).Population = r.Population ∧
    (apply_trends_row r).Menages = r.Menages ∧
    (apply_trends_row r).Impots_Locaux = r.Impots_Locaux ∧
    (apply_trends_row r).Dotations_Territoriales = r.Dotations_Territoriales ∧
    (apply_trends_row r).Depenses_Totales = r.Depenses_Totales ∧
    (apply_trends_row r).Fonctionnement = r.Fonctionnement ∧
    (apply_trends_row r).Charge_Dette = r.Charge_Dette ∧
    (apply_trends_row r).Personnel = r.Personnel ∧
    (apply_trends_row r).Epargne_Brute = r.Epargne_Brute ∧
    (apply_trends_row r).Dette_Totale = r.Dette_Totale ∧
    (apply_trends_row r).Taux_Endettement = r.Taux_Endettement ∧
    (apply_trends_row r).Taux_Fiscalite = r.Taux_Fiscalite ∧
    (apply_trends_row r).Investissement_Transport = r.Investissement_Transport ∧
    (apply_trends_row r).Investissement_Culture = r.Investissement_Culture := by
  simp only [apply_trends_row]
  split_ifs <;> exact ⟨rfl, rfl, rfl, rfl, rfl, rfl, rfl, rfl, rfl, rfl, rfl, rfl, rfl, rfl, rfl⟩

lemma trends_Annee (r : Row) : (apply_trends_row r).Annee = r.Annee :=
  (trends_frame_all r).1

lemma trends_Population (r : Row) : (apply_trends_row r).Population = r.Population :=
  (trends_frame_all r).2.1

lemma trends_Menages (r : Row) : (apply_trends_row r).Menages = r.Menages :=
  (trends_frame_all r).2.2.1

lemma trends_Impots_Locaux (r : Row) : (apply_trends_row r).Impots_Locaux = r.Impots_Locaux :=
  (trends_frame_all r).2.2.2.1

lemma trends_Dotations_Territoriales (r : Row) : (apply_trends_row r).Dotations_Territoriales = r.Dotations_Territoriales :=
  (trends_frame_all r).2.2.2.2.1

lemma trends_Depenses_Totales (r : Row) : (apply_trends_row r).Depenses_Totales = r.Depenses_Totales :=
  (trends_frame_all r).2.2.2.2.2.1

lemma trends_Fonctionnement (r : Row) : (apply_trends_row r).Fonctionnement = r.Fonctionnement :=
  (trends_frame_all r).2.2.2.2.2.2.1

lemma trends_Charge_Dette (r : Row) : (apply_trends_row r).Charge_Dette = r.Charge_Dette :=
  (trends_frame_all r).2.2.2.2.2.2.2.1

lemma trends_Personnel (r : Row) : (apply_trends_row r).Personnel = r.Personnel :=
  (trends_frame_all r).2.2.2.2.2.2.2.2.1

lemma trends_Epargne_Brute (r : Row) : (apply_trends_row r).Epargne_Brute = r.Epargne_Brute :=
  (trends_frame_all r).2.2.2.2.2.2.2.2.2.1

lemma trends_Dette_Totale (r : Row) : (apply_trends_row r).Dette_Totale = r.Dette_Totale :=
  (trends_frame_all r).2.2.2.2.2.2.2.2.2.2.1

lemma trends_Taux_Endettement (r : Row) : (apply_trends_row r).Taux_Endettement = r.Taux_Endettement :=
  (trends_frame_all r).2.2.2.2.2.2.2.2.2.2.2.1

lemma trends_Taux_Fiscalite (r : Row) : (apply_trends_row r).Taux_Fiscalite = r.Taux_Fiscalite :=
  (trends_frame_all r).2.2.2.2.2.2.2.2.2.2.2.2.1

lemma trends_Investissement_Transport (r : Row) : (apply_trends_row r).Investissement_Transport = r.Investissement_Transport :=
  (trends_frame_all r).2.2.2.2.2.2.2.2.2.2.2.2.2.1

lemma trends_Investissement_Culture (r : Row) : (apply_trends_row r).Investissement_Culture = r.Investissement_Culture :=
  (trends_frame_all r).2.2.2.2.2.2.2.2.2.2.2.2.2.2

/-- Claim C8: the shock-adjustment pass modifies only the eight columns
named in its rules; the other fifteen columns of a row — `Annee`,
`Population`, `Menages`, `Impots_Locaux`, `Dotations_Territoriales`,
`Depenses_Totales`, `Fonctionnement`, `Charge_Dette`, `Personnel`,
`Epargne_Brute`, `Dette_Totale`, `Taux_Endettement`, `Taux_Fiscalite`,
`Investissement_Transport`, `Investissement_Culture` — are left
unchanged, for every row. -/
theorem add_municipal_trends_frame (r : Row) :
    (apply_trends_row r).Annee = r.Annee ∧
    (apply_trends_row r).Population = r.Population ∧
    (apply_trends_row r).Menages = r.Menages ∧
    (apply_trends_row r).Impots_Locaux = r.Impots_Locaux ∧
    (apply_trends_row r).Dotations_Territoriales = r.Dotations_Territoriales ∧
    (apply_trends_row r).Depenses_Totales = r.Depenses_Totales ∧
    (apply_trends_row r).Fonctionnement = r.Fonctionnement ∧
    (apply_trends_row r).Charge_Dette = r.Charge_Dette ∧
    (apply_trends_row r).Personnel = r.Personnel ∧
    (apply_trends_row r).Epargne_Brute = r.Epargne_Brute ∧
    (apply_trends_row r).Dette_Totale = r.Dette_Totale ∧
    (apply_trends_row r).Taux_Endettement = r.Taux_Endettement ∧
    (apply_trends_row r).Taux_Fiscalite = r.Taux_Fiscalite ∧
    (apply_trends_row r).Investissement_Transport = r.Investissement_Transport ∧
    (apply_trends_row r).Investissement_Culture = r.Investissement_Culture :=
  ⟨trends_Annee r, trends_Population r, trends_Menages r, trends_Impots_Locaux r,
   trends_Dotations_Territoriales r, trends_Depenses_Totales r, trends_Fonctionnement r,
   trends_Charge_Dette r, trends_Personnel r, trends_Epargne_Brute r,
   trends_Dette_Totale r, trends_Taux_Endettement r, trends_Taux_Fiscalite r,
   trends_Investissement_Transport r, trends_Investissement_Culture r⟩

/-! ### Configuration resolver -/

lemma lookup_eq_none_of_not_mem {α β : Type} [BEq α] [LawfulBEq α]
    (a : α) (l : List (α × β)) (h : a ∉ l.map Prod.fst) : l.lookup a = none := by
  induction l with
  | nil => rfl
  | cons kv es ih =>
    obtain ⟨k, b⟩ := kv
    simp only [List.map_cons, List.mem_cons] at h
    push_neg at h
    rw [List.lookup_cons]
    have hb : (a == k) = false := beq_eq_false_iff_ne.mpr h.1
    rw [hb]
    exact ih h.2

/-- Every configuration the resolver can return has strictly positive
population and budget baselines. -/
lemma get_commune_config_pos (name : String) :
    0 < (get_commune_config name).population_base ∧
      0 < (get_commune_config name).budget_base := by
  unfold get_commune_config configs
  simp only [List.lookup_cons, List.lookup_nil]
  repeat' split <;> norm_num [default_config]

/-- Claim C4: resolving a subdivision name not present in the registry
never fails: it returns the designated default configuration
value-for-value (population base 2000, budget base 30, category
`district`, the default specialty set). -/
theorem get_commune_config_fallback (name : String)
    (h : name ∉ configs.map Prod.fst) :
    get_commune_config name = default_config ∧
    default_config.population_base = 2000 ∧
    default_config.budget_base = 30 ∧
    default_config.type = CommuneType.district ∧
    default_config.specialites = ["agriculture", "peche", "artisanat", "services_locaux"] := by
  refine ⟨?_, rfl, rfl, rfl, rfl⟩
  unfold get_commune_config
  rw [lookup_eq_none_of_not_mem name configs h]
  rfl

/-- Witness for C4 at the concrete unknown name `"unknown-name"`. -/
theorem get_commune_config_fallback_witness :
    "unknown-name" ∉ configs.map Prod.fst ∧
    get_commune_config "unknown-name" = default_config :=
  ⟨by decide, (get_commune_config_fallback "unknown-name" (by decide)).1⟩

/-! ### Table structure -/

lemma cells_fst (r : Row) : (Row.cells r).map Prod.fst = columns := rfl

lemma generate_length (config : Config) (η : Noise) :
    (generate_financial_data config η).length = num_years := by
  simp [generate_financial_data, add_municipal_trends]

/-- Claim C1 (amended: the fixed column set has 23 columns, not 22):
for every configuration and every noise assignment,
`generate_financial_data` returns a table with exactly
`end_year - start_year + 1 = 24` rows, and every row carries the fixed
full column set (`Annee`, `Population`, `Menages`, 5 revenue metrics,
5 expense metrics, 4 financial-ratio metrics, 6 sector-investment
metrics — 23 columns), every cell populated by construction. -/
theorem generate_financial_data_structure (config : Config) (η : Noise) :
    (generate_financial_data config η).length = end_year - start_year + 1 ∧
    (generate_financial_data config η).length = 24 ∧
    (generate_financial_data config η).map (fun r => (Row.cells r).map Prod.fst)
      = List.replicate 24 columns ∧
    columns.length = 23 := by
  refine ⟨generate_length config η, ?_, ?_, rfl⟩
  · rw [generate_length config η]
    decide
  · have h1 : (generate_financial_data config η).map (fun r => (Row.cells r).map Prod.fst)
        = (generate_financial_data config η).map (fun _ => columns) :=
      List.map_congr_left fun r _ => cells_fst r
    rw [h1, List.map_const', generate_length config η]
    decide

/-- Counterexample to C1 as stated: the fixed column set of the
generated table (witnessed on the first row of a concrete run) has 23
columns, not 22. -/
theorem generate_financial_data_columns_ce :
    (Row.cells (row_at default_config Noise.one 0)).map Prod.fst = columns ∧
    columns.length = 23 ∧ ¬ columns.length = 22 :=
  ⟨rfl, rfl, by decide⟩

/-! ### Shock boundary, ratio trends, total debt -/

/-- Claim C3: in the shock-adjustment pass, a row with year 2007
receives none of the 2008-2009 adjustments, while a row with year 2008
or 2009 has its total revenue multiplied by 0.94, its total investment
expense by 0.85 and its other revenue by 0.88, exactly once (inclusive
bounds on the year range). -/
theorem shock_2008_2009_boundary (r : Row) :
    (r.Annee = 2007 →
      (apply_trends_row r).Recettes_Totales = r.Recettes_Totales ∧
      (apply_trends_row r).Investissement = r.Investissement ∧
      (apply_trends_row r).Autres_Recettes = r.Autres_Recettes) ∧
    (r.Annee = 2008 ∨ r.Annee = 2009 →
      (apply_trends_row r).Recettes_Totales = r.Recettes_Totales * 0.94 ∧
      (apply_trends_row r).Investissement = r.Investissement * 0.85 ∧
      (apply_trends_row r).Autres_Recettes = r.Autres_Recettes * 0.88) := by
  constructor
  · intro h
    simp [apply_trends_row, h]
  · rintro (h | h) <;> simp [apply_trends_row, h]

/-- An arbitrary concrete row (all metric cells 1) used as witness input. -/
def shock_test_row : Row :=
  ⟨2008, 1, 1, 1, 1, 1, 1, 1, 1, 1, 1, 1, 1, 1, 1, 1, 1, 1, 1, 1, 1, 1, 1⟩

/-- Witness for C3 at the concrete year-2008 row `shock_test_row`. -/
theorem shock_2008_2009_boundary_witness :
    (apply_trends_row shock_test_row).Recettes_Totales = shock_test_row.Recettes_Totales * 0.94 ∧
    (apply_trends_row shock_test_row).Investissement = shock_test_row.Investissement * 0.85 ∧
    (apply_trends_row shock_test_row).Autres_Recettes = shock_test_row.Autres_Recettes * 0.88 :=
  (shock_2008_2009_boundary shock_test_row).2 (Or.inl rfl)

/-- Claim C6: the two ratio metrics are computed from the fixed base
constants 0.70 and 0.80 (their definitions take no configuration at
all, so they are not derived from `budget_base`) with a one-sided
linear trend: factor exactly 1 for every year before 2010, and for
every year ≥ 2010 a factor linear in `year - 2010` (debt ratio
-0.01/year, tax rate +0.004/year), before the noise draw. -/
theorem ratio_metrics_one_sided_trend (η₁ η₂ : ℕ → ℚ) (i : ℕ) :
    (year_of i < 2010 →
      simulate_debt_ratio η₁ i = 0.70 * 1 * η₁ i ∧
      simulate_tax_rate η₂ i = 0.80 * 1 * η₂ i) ∧
    (2010 ≤ year_of i →
      simulate_debt_ratio η₁ i = 0.70 * (1 - 0.01 * ((year_of i : ℚ) - 2010)) * η₁ i ∧
      simulate_tax_rate η₂ i = 0.80 * (1 + 0.004 * ((year_of i : ℚ) - 2010)) * η₂ i) := by
  constructor
  · intro h
    have h2 : ¬ 2010 ≤ year_of i := by omega
    simp [simulate_debt_ratio, simulate_tax_rate, h2]
  · intro h
    simp [simulate_debt_ratio, simulate_tax_rate, h]

/-- Witness for C6 at index 0 (year 2002, before the threshold). -/
theorem ratio_metrics_one_sided_trend_witness :
    simulate_debt_ratio (fun _ => 1) 0 = 0.70 * 1 * 1 ∧
    simulate_tax_rate (fun _ => 1) 0 = 0.80 * 1 * 1 :=
  (ratio_metrics_one_sided_trend (fun _ => 1) (fun _ => 1) 0).1 (by decide)

/-- Claim C10: the total-debt series has no linear growth term: for
every year outside the change-year lists `{2006, 2012, 2018, 2023}`
(factor 1.25) and `{2009, 2015, 2021}` (factor 0.92), the pre-noise
value is the constant `budget_base * 0.75`, independent of the year
index. -/
theorem total_debt_no_growth (config : Config) (η : ℕ → ℚ) (i : ℕ)
    (h1 : year_of i ∉ [2006, 2012, 2018, 2023])
    (h2 : year_of i ∉ [2009, 2015, 2021]) :
    simulate_total_debt config η i = config.budget_base * 0.75 * η i := by
  simp only [simulate_total_debt, if_neg h1, if_neg h2]
  norm_num

/-- Witness for C10 at index 0 (year 2002, in neither change list). -/
theorem total_debt_no_growth_witness :
    simulate_total_debt default_config (fun _ => 1) 0 = default_config.budget_base * 0.75 * 1 :=
  total_debt_no_growth default_config (fun _ => 1) 0 (by decide) (by decide)

/-! ### End-to-end scenario -/

lemma generate_getElem (config : Config) (η : Noise) (i : ℕ) (h : i < num_years) :
    (generate_financial_data config η)[i]? = some (row_at config η i) := by
  simp [generate_financial_data, add_municipal_trends, row_at,
    List.getElem?_map, List.getElem?_range, h]

/-- Claim C2: with all noise draws forced to 1 and a configuration of
category `chef_lieu`, the generated table satisfies: the population at
year 2002 (index 0) equals `population_base`; the population at year
2003 (index 1) equals `population_base * (1 + 0.01 * 1)`; and the row
for year 2002 carries the initial-development multipliers 1.4 and 1.3
on the agriculture- and fishing-investment columns, since 2002 lies in
2002..2005. -/
theorem chef_lieu_end_to_end (config : Config)
    (h : config.type = CommuneType.chef_lieu) :
    ((generate_financial_data config Noise.one)[0]?).map Row.Population
        = some config.population_base ∧
    ((generate_financial_data config Noise.one)[1]?).map Row.Population
        = some (config.population_base * (1 + 0.01 * 1)) ∧
    ((generate_financial_data config Noise.one)[0]?).map Row.Investissement_Agriculture
        = some (simulate_agriculture_investment config (fun _ => 1) 0 * 1.4) ∧
    ((generate_financial_data config Noise.one)[0]?).map Row.Investissement_Peche
        = some (simulate_fishing_investment config (fun _ => 1) 0 * 1.3) := by
  rw [generate_getElem config Noise.one 0 (by decide),
    generate_getElem config Noise.one 1 (by decide)]
  refine ⟨?_, ?_, ?_, ?_⟩
  · simp [row_at, trends_Population, mk_row, simulate_population, h]
  · simp [row_at, trends_Population, mk_row, simulate_population, h]
  · simp [row_at, apply_trends_row, mk_row, year_of, start_year, Noise.one, Noise.const]
  · simp [row_at, apply_trends_row, mk_row, year_of, start_year, Noise.one, Noise.const]

/-- Witness for C2 at the concrete chef-lieu configuration
(`"Mata-Utu"`). -/
theorem chef_lieu_end_to_end_witness :
    ((generate_financial_data (get_commune_config "Mata-Utu") Noise.one)[0]?).map Row.Population
        = some (get_commune_config "Mata-Utu").population_base ∧
    ((generate_financial_data (get_commune_config "Mata-Utu") Noise.one)[1]?).map Row.Population
        = some ((get_commune_config "Mata-Utu").population_base * (1 + 0.01 * 1)) ∧
    ((generate_financial_data (get_commune_config "Mata-Utu") Noise.one)[0]?).map
        Row.Investissement_Agriculture
        = some (simulate_agriculture_investment (get_commune_config "Mata-Utu") (fun _ => 1) 0 * 1.4) ∧
    ((generate_financial_data (get_commune_config "Mata-Utu") Noise.one)[0]?).map
        Row.Investissement_Peche
        = some (simulate_fishing_investment (get_commune_config "Mata-Utu") (fun _ => 1) 0 * 1.3) :=
  chef_lieu_end_to_end (get_commune_config "Mata-Utu") (by decide)

/-! ### Positivity -/

/-- Claim C5 (amended): for every subdivision name, every noise
assignment and every row, population and households are strictly
positive unconditionally (they draw no noise); the debt ratio
(`Taux_Endettement`, over the fixed year range) and the tax rate
(`Taux_Fiscalite`) are strictly positive whenever the corresponding
noise draw is strictly positive — the pre-noise factors are strictly
positive, but an adversarial (e.g. negative) draw of the unbounded
normal noise flips the sign. -/
theorem population_households_ratios_pos (name : String) (η : Noise) (i : ℕ) :
    0 < (row_at (get_commune_config name) η i).Population ∧
    0 < (row_at (get_commune_config name) η i).Menages ∧
    (i < num_years → 0 < η.taux_endettement i →
      0 < (row_at (get_commune_config name) η i).Taux_Endettement) ∧
    (0 < η.taux_fiscalite i →
      0 < (row_at (get_commune_config name) η i).Taux_Fiscalite) := by
  obtain ⟨hp, hb⟩ := get_commune_config_pos name
  refine ⟨?_, ?_, ?_, ?_⟩
  · rw [row_at, trends_Population]
    show 0 < simulate_population (get_commune_config name) i
    unfold simulate_population
    have hg : (0:ℚ) < 1 + 0.01 * i := by positivity
    have hg2 : (0:ℚ) < 1 + 0.008 * i := by positivity
    have hg3 : (0:ℚ) < 1 + 0.009 * i := by positivity
    rcases ht : (get_commune_config name).type <;> simp [ht] <;>
      first
        | exact mul_pos hp hg
        | exact mul_pos hp hg2
        | exact mul_pos hp hg3
  · rw [row_at, trends_Menages]
    show 0 < simulate_households (get_commune_config name) i
    unfold simulate_households
    have hg : (0:ℚ) < 1 + 0.008 * i := by positivity
    exact mul_pos (div_pos hp (by norm_num)) hg
  · intro hi hη
    rw [row_at, trends_Taux_Endettement]
    show 0 < simulate_debt_ratio η.taux_endettement i
    unfold simulate_debt_ratio
    by_cases h10 : 2010 ≤ year_of i
    · rw [if_pos h10]
      have hy : (year_of i : ℚ) ≤ 2025 := by
        have : year_of i ≤ 2025 := by
          unfold year_of start_year
          unfold num_years end_year start_year at hi
          omega
        exact_mod_cast this
      have himp : (0:ℚ) < 1 - 0.01 * ((year_of i : ℚ) - 2010) := by linarith
      exact mul_pos (mul_pos (by norm_num) himp) hη
    · rw [if_neg h10]
      exact mul_pos (by norm_num) hη
  · intro hη
    rw [row_at, trends_Taux_Fiscalite]
    show 0 < simulate_tax_rate η.taux_fiscalite i
    unfold simulate_tax_rate
    by_cases h10 : 2010 ≤ year_of i
    · rw [if_pos h10]
      have hy : (2010:ℚ) ≤ (year_of i : ℚ) := by exact_mod_cast h10
      have hinc : (0:ℚ) < 1 + 0.004 * ((year_of i : ℚ) - 2010) := by linarith
      exact mul_pos (mul_pos (by norm_num) hinc) hη
    · rw [if_neg h10]
      exact mul_pos (by norm_num) hη

/-- Witness for C5 at the concrete name `"Hahake"`, index 0, noise 1. -/
theorem population_households_ratios_pos_witness :
    0 < (row_at (get_commune_config "Hahake") Noise.one 0).Population ∧
    0 < (row_at (get_commune_config "Hahake") Noise.one 0).Menages ∧
    0 < (row_at (get_commune_config "Hahake") Noise.one 0).Taux_Endettement ∧
    0 < (row_at (get_commune_config "Hahake") Noise.one 0).Taux_Fiscalite :=
  ⟨(population_households_ratios_pos "Hahake" Noise.one 0).1,
   (population_households_ratios_pos "Hahake" Noise.one 0).2.1,
   (population_households_ratios_pos "Hahake" Noise.one 0).2.2.1 (by decide) (by decide),
   (population_households_ratios_pos "Hahake" Noise.one 0).2.2.2 (by decide)⟩

/-- All noise draws 1 except a draw of -1 for the debt-ratio metric:
a possible (if improbable) sample of `np.random.normal(1, 0.07)`. -/
def negative_noise : Noise := { Noise.one with taux_endettement := fun _ => -1 }

/-- Counterexample to C5 as stated: with the noise draw -1 for the
debt-ratio metric, the debt ratio of the first generated row is
-0.70, not strictly positive — positivity survives the noise draw only
when the draw itself is positive. -/
theorem ratios_after_noise_ce :
    (row_at default_config negative_noise 0).Taux_Endettement = -0.70 ∧
    ¬ (0 < (row_at default_config negative_noise 0).Taux_Endettement) := by
  constructor
  · rw [row_at, trends_Taux_Endettement]
    show simulate_debt_ratio negative_noise.taux_endettement 0 = -0.70
    norm_num [simulate_debt_ratio, negative_noise, year_of, start_year]
  · rw [row_at, trends_Taux_Endettement]
    show ¬ (0 < simulate_debt_ratio negative_noise.taux_endettement 0)
    norm_num [simulate_debt_ratio, negative_noise, year_of, start_year]

/-! ### Cycle-year effect on sector investments -/

/-- Trend-only value of the agriculture investment: base fraction ×
linear growth × specialty multiplier, i.e.
`_simulate_agriculture_investment` with `year_multiplier = 1` and
noise 1. -/
def agriculture_trend (config : Config) (i : ℕ) : ℚ :=
  (config.budget_base * 0.07) * (1 + 0.026 * i) *
    (if "agriculture" ∈ config.specialites then 1.5 else 0.8)

/-- Trend-only value of the fishing investment. -/
def fishing_trend (config : Config) (i : ℕ) : ℚ :=
  (config.budget_base * 0.06) * (1 + 0.028 * i) *
    (if "peche" ∈ config.specialites then 1.6 else 0.7)

/-- Trend-only value of the transport investment. -/
def transport_trend (config : Config) (i : ℕ) : ℚ :=
  (config.budget_base * 0.05) * (1 + 0.024 * i) *
    (if "transport" ∈ config.specialites then 1.4 else 0.9)

/-- Trend-only value of the education investment. -/
def education_trend (config : Config) (i : ℕ) : ℚ :=
  (config.budget_base * 0.06) * (1 + 0.027 * i) *
    (if "education" ∈ config.specialites then 1.4 else 0.9)

/-- Trend-only value of the health investment. -/
def health_trend (config : Config) (i : ℕ) : ℚ :=
  (config.budget_base * 0.05) * (1 + 0.025 * i) *
    (if "sante" ∈ config.specialites then 1.5 else 0.9)

/-- Trend-only value of the culture investment. -/
def culture_trend (config : Config) (i : ℕ) : ℚ :=
  (config.budget_base * 0.04) * (1 + 0.023 * i) *
    (if "culture" ∈ config.specialites then 1.6 else 0.7)

lemma lt_mul_self_of_pos {t c : ℚ} (ht : 0 < t) (hc : 1 < c) : t < c * t := by
  nlinarith

/-- Claim C7: with the noise draw held at 1, for every sector-investment
metric and every declared investment-cycle year, the generated value
equals exactly the documented cycle multiplier (1.8 agriculture,
1.7 fishing, 1.6 transport, 1.6 education, 1.7 health, 1.7 culture)
times the trend-only value at the same index — hence strictly greater
than the trend-only value — and for every year not in the metric's
cycle list the year multiplier is exactly 1. -/
theorem sector_cycle_effect (config : Config) (i : ℕ)
    (hb : 0 < config.budget_base) :
    ((year_of i ∈ [2005, 2010, 2015, 2020] →
      simulate_agriculture_investment config (fun _ => 1) i = 1.8 * agriculture_trend config i ∧
      agriculture_trend config i < simulate_agriculture_investment config (fun _ => 1) i) ∧
     (year_of i ∉ [2005, 2010, 2015, 2020] →
      simulate_agriculture_investment config (fun _ => 1) i = agriculture_trend config i)) ∧
    ((year_of i ∈ [2007, 2013, 2019, 2024] →
      simulate_fishing_investment config (fun _ => 1) i = 1.7 * fishing_trend config i ∧
      fishing_trend config i < simulate_fishing_investment config (fun _ => 1) i) ∧
     (year_of i ∉ [2007, 2013, 2019, 2024] →
      simulate_fishing_investment config (fun _ => 1) i = fishing_trend config i)) ∧
    ((year_of i ∈ [2006, 2012, 2018, 2023] →
      simulate_transport_investment config (fun _ => 1) i = 1.6 * transport_trend config i ∧
      transport_trend config i < simulate_transport_investment config (fun _ => 1) i) ∧
     (year_of i ∉ [2006, 2012, 2018, 2023] →
      simulate_transport_investment config (fun _ => 1) i = transport_trend config i)) ∧
    ((year_of i ∈ [2008, 2014, 2020] →
      simulate_education_investment config (fun _ => 1) i = 1.6 * education_trend config i ∧
      education_trend config i < simulate_education_investment config (fun _ => 1) i) ∧
     (year_of i ∉ [2008, 2014, 2020] →
      simulate_education_investment config (fun _ => 1) i = education_trend config i)) ∧
    ((year_of i ∈ [2009, 2015, 2021] →
      simulate_health_investment config (fun _ => 1) i = 1.7 * health_trend config i ∧
      health_trend config i < simulate_health_investment config (fun _ => 1) i) ∧
     (year_of i ∉ [2009, 2015, 2021] →
      simulate_health_investment config (fun _ => 1) i = health_trend config i)) ∧
    ((year_of i ∈ [2010, 2016, 2022] →
      simulate_culture_investment config (fun _ => 1) i = 1.7 * culture_trend config i ∧
      culture_trend config i < simulate_culture_investment config (fun _ => 1) i) ∧
     (year_of i ∉ [2010, 2016, 2022] →
      simulate_culture_investment config (fun _ => 1) i = culture_trend config i)) := by
  refine ⟨⟨?_, ?_⟩, ⟨?_, ?_⟩, ⟨?_, ?_⟩, ⟨?_, ?_⟩, ⟨?_, ?_⟩, ⟨?_, ?_⟩⟩
  · intro hy
    have hg : (0:ℚ) < 1 + 0.026 * i := by positivity
    have hs : (0:ℚ) < (if "agriculture" ∈ config.specialites then (1.5:ℚ) else 0.8) := by
      split <;> norm_num
    have ht : 0 < agriculture_trend config i :=
      mul_pos (mul_pos (mul_pos hb (by norm_num)) hg) hs
    have he : simulate_agriculture_investment config (fun _ => 1) i = 1.8 * agriculture_trend config i := by
      simp only [simulate_agriculture_investment, agriculture_trend, if_pos hy]
      ring
    exact ⟨he, by rw [he]; exact lt_mul_self_of_pos ht (by norm_num)⟩
  · intro hy
    simp only [simulate_agriculture_investment, agriculture_trend, if_neg hy]
    ring
  · intro hy
    have hg : (0:ℚ) < 1 + 0.028 * i := by positivity
    have hs : (0:ℚ) < (if "peche" ∈ config.specialites then (1.6:ℚ) else 0.7) := by
      split <;> norm_num
    have ht : 0 < fishing_trend config i :=
      mul_pos (mul_pos (mul_pos hb (by norm_num)) hg) hs
    have he : simulate_fishing_investment config (fun _ => 1) i = 1.7 * fishing_trend config i := by
      simp only [simulate_fishing_investment, fishing_trend, if_pos hy]
      ring
    exact ⟨he, by rw [he]; exact lt_mul_self_of_pos ht (by norm_num)⟩
  · intro hy
    simp only [simulate_fishing_investment, fishing_trend, if_neg hy]
    ring
  · intro hy
    have hg : (0:ℚ) < 1 + 0.024 * i := by positivity
    have hs : (0:ℚ) < (if "transport" ∈ config.specialites then (1.4:ℚ) else 0.9) := by
      split <;> norm_num
    have ht : 0 < transport_trend config i :=
      mul_pos (mul_pos (mul_pos hb (by norm_num)) hg) hs
    have he : simulate_transport_investment config (fun _ => 1) i = 1.6 * transport_trend config i := by
      simp only [simulate_transport_investment, transport_trend, if_pos hy]
      ring
    exact ⟨he, by rw [he]; exact lt_mul_self_of_pos ht (by norm_num)⟩
  · intro hy
    simp only [simulate_transport_investment, transport_trend, if_neg hy]
    ring
  · intro hy
    have hg : (0:ℚ) < 1 + 0.027 * i := by positivity
    have hs : (0:ℚ) < (if "education" ∈ config.specialites then (1.4:ℚ) else 0.9) := by
      split <;> norm_num
    have ht : 0 < education_trend config i :=
      mul_pos (mul_pos (mul_pos hb (by norm_num)) hg) hs
    have he : simulate_education_investment config (fun _ => 1) i = 1.6 * education_trend config i := by
      simp only [simulate_education_investment, education_trend, if_pos hy]
      ring
    exact ⟨he, by rw [he]; exact lt_mul_self_of_pos ht (by norm_num)⟩
  · intro hy
    simp only [simulate_education_investment, education_trend, if_neg hy]
    ring
  · intro hy
    have hg : (0:ℚ) < 1 + 0.025 * i := by positivity
    have hs : (0:ℚ) < (if "sante" ∈ config.specialites then (1.5:ℚ) else 0.9) := by
      split <;> norm_num
    have ht : 0 < health_trend config i :=
      mul_pos (mul_pos (mul_pos hb (by norm_num)) hg) hs
    have he : simulate_health_investment config (fun _ => 1) i = 1.7 * health_trend config i := by
      simp only [simulate_health_investment, health_trend, if_pos hy]
      ring
    exact ⟨he, by rw [he]; exact lt_mul_self_of_pos ht (by norm_num)⟩
  · intro hy
    simp only [simulate_health_investment, health_trend, if_neg hy]
    ring
  · intro hy
    have hg : (0:ℚ) < 1 + 0.023 * i := by positivity
    have hs : (0:ℚ) < (if "culture" ∈ config.specialites then (1.6:ℚ) else 0.7) := by
      split <;> norm_num
    have ht : 0 < culture_trend config i :=
      mul_pos (mul_pos (mul_pos hb (by norm_num)) hg) hs
    have he : simulate_culture_investment config (fun _ => 1) i = 1.7 * culture_trend config i := by
      simp only [simulate_culture_investment, culture_trend, if_pos hy]
      ring
    exact ⟨he, by rw [he]; exact lt_mul_self_of_pos ht (by norm_num)⟩
  · intro hy
    simp only [simulate_culture_investment, culture_trend, if_neg hy]
    ring

/-- Witness for C7: at `"Mata-Utu"` (budget base 35 > 0), index 5
(year 2007, a fishing cycle year), the fishing investment is exactly
1.7 × the trend-only value. -/
theorem sector_cycle_effect_witness :
    simulate_fishing_investment (get_commune_config "Mata-Utu") (fun _ => 1) 5
        = 1.7 * fishing_trend (get_commune_config "Mata-Utu") 5 ∧
    fishing_trend (get_commune_config "Mata-Utu") 5
        < simulate_fishing_investment (get_commune_config "Mata-Utu") (fun _ => 1) 5 :=
  (sector_cycle_effect (get_commune_config "Mata-Utu") 5 (by decide)).2.1.1 (by decide)

/-! ### Noise-independence of the demographic columns -/

/-- Effect of the trends pass on the eight touched columns of a
year-2002 row: only the initial-development factors 1.4 and 1.3 apply. -/
lemma trends_at_2002 (r : Row) (h : r.Annee = 2002) :
    (apply_trends_row r).Recettes_Totales = r.Recettes_Totales ∧
    (apply_trends_row r).Investissement = r.Investissement ∧
    (apply_trends_row r).Autres_Recettes = r.Autres_Recettes ∧
    (apply_trends_row r).Dotations_Etat = r.Dotations_Etat ∧
    (apply_trends_row r).Investissement_Education = r.Investissement_Education ∧
    (apply_trends_row r).Investissement_Sante = r.Investissement_Sante ∧
    (apply_trends_row r).Investissement_Agriculture = r.Investissement_Agriculture * 1.4 ∧
    (apply_trends_row r).Investissement_Peche = r.Investissement_Peche * 1.3 := by
  simp [apply_trends_row, h]

/-- All noise draws constant at 2. -/
def noise_two : Noise := Noise.const 2

/-- Claim C9: the population and households series draw no noise at
all: for a fixed configuration the `Population` and `Menages` columns
are identical across runs with arbitrary different noise assignments —
unlike every one of the other 20 metric columns, each of which changes
between the all-ones and the all-twos noise assignments (shown on the
first row of the default configuration). -/
theorem population_menages_noise_free (config : Config) (η₁ η₂ : Noise) :
    (generate_financial_data config η₁).map Row.Population
      = (generate_financial_data config η₂).map Row.Population ∧
    (generate_financial_data config η₁).map Row.Menages
      = (generate_financial_data config η₂).map Row.Menages ∧
    (row_at default_config Noise.one 0).Recettes_Totales ≠ (row_at default_config noise_two 0).Recettes_Totales ∧
    (row_at default_config Noise.one 0).Impots_Locaux ≠ (row_at default_config noise_two 0).Impots_Locaux ∧
    (row_at default_config Noise.one 0).Dotations_Etat ≠ (row_at default_config noise_two 0).Dotations_Etat ∧
    (row_at default_config Noise.one 0).Dotations_Territoriales ≠ (row_at default_config noise_two 0).Dotations_Territoriales ∧
    (row_at default_config Noise.one 0).Autres_Recettes ≠ (row_at default_config noise_two 0).Autres_Recettes ∧
    (row_at default_config Noise.one 0).Depenses_Totales ≠ (row_at default_config noise_two 0).Depenses_Totales ∧
    (row_at default_config Noise.one 0).Fonctionnement ≠ (row_at default_config noise_two 0).Fonctionnement ∧
    (row_at default_config Noise.one 0).Investissement ≠ (row_at default_config noise_two 0).Investissement ∧
    (row_at default_config Noise.one 0).Charge_Dette ≠ (row_at default_config noise_two 0).Charge_Dette ∧
    (row_at default_config Noise.one 0).Personnel ≠ (row_at default_config noise_two 0).Personnel ∧
    (row_at default_config Noise.one 0).Epargne_Brute ≠ (row_at default_config noise_two 0).Epargne_Brute ∧
    (row_at default_config Noise.one 0).Dette_Totale ≠ (row_at default_config noise_two 0).Dette_Totale ∧
    (row_at default_config Noise.one 0).Taux_Endettement ≠ (row_at default_config noise_two 0).Taux_Endettement ∧
    (row_at default_config Noise.one 0).Taux_Fiscalite ≠ (row_at default_config noise_two 0).Taux_Fiscalite ∧
    (row_at default_config Noise.one 0).Investissement_Agriculture ≠ (row_at default_config noise_two 0).Investissement_Agriculture ∧
    (row_at default_config Noise.one 0).Investissement_Peche ≠ (row_at default_config noise_two 0).Investissement_Peche ∧
    (row_at default_config Noise.one 0).Investissement_Transport ≠ (row_at default_config noise_two 0).Investissement_Transport ∧
    (row_at default_config Noise.one 0).Investissement_Education ≠ (row_at default_config noise_two 0).Investissement_Education ∧
    (row_at default_config Noise.one 0).Investissement_Sante ≠ (row_at default_config noise_two 0).Investissement_Sante ∧
    (row_at default_config Noise.one 0).Investissement_Culture ≠ (row_at default_config noise_two 0).Investissement_Culture := by
  have hpop : ∀ η : Noise, (generate_financial_data config η).map Row.Population
      = (List.range num_years).map (simulate_population config) := by
    intro η
    unfold generate_financial_data add_municipal_trends
    rw [List.map_map, List.map_map]
    apply List.map_congr_left
    intro j hj
    show Row.Population (apply_trends_row (mk_row config η j)) = simulate_population config j
    rw [trends_Population]
    rfl
  have hmen : ∀ η : Noise, (generate_financial_data config η).map Row.Menages
      = (List.range num_years).map (simulate_households config) := by
    intro η
    unfold generate_financial_data add_municipal_trends
    rw [List.map_map, List.map_map]
    apply List.map_congr_left
    intro j hj
    show Row.Menages (apply_trends_row (mk_row config η j)) = simulate_households config j
    rw [trends_Menages]
    rfl
  refine ⟨(hpop η₁).trans (hpop η₂).symm, (hmen η₁).trans (hmen η₂).symm,
    ?_, ?_, ?_, ?_, ?_, ?_, ?_, ?_, ?_, ?_, ?_, ?_, ?_, ?_, ?_, ?_, ?_, ?_, ?_, ?_⟩
  · rw [row_at, row_at, (trends_at_2002 (mk_row default_config Noise.one 0) rfl).1,
      (trends_at_2002 (mk_row default_config noise_two 0) rfl).1]
    norm_num [mk_row, simulate_total_revenue, default_config, Noise.one, Noise.const, noise_two,
      year_of, start_year]
  · rw [row_at, row_at, trends_Impots_Locaux, trends_Impots_Locaux]
    norm_num [mk_row, simulate_tax_revenue, default_config, Noise.one, Noise.const, noise_two,
      year_of, start_year]
  · rw [row_at, row_at, (trends_at_2002 (mk_row default_config Noise.one 0) rfl).2.2.2.1,
      (trends_at_2002 (mk_row default_config noise_two 0) rfl).2.2.2.1]
    norm_num [mk_row, simulate_state_grants, default_config, Noise.one, Noise.const, noise_two,
      year_of, start_year]
  · rw [row_at, row_at, trends_Dotations_Territoriales, trends_Dotations_Territoriales]
    norm_num [mk_row, simulate_territorial_grants, default_config, Noise.one, Noise.const, noise_two,
      year_of, start_year]
  · rw [row_at, row_at, (trends_at_2002 (mk_row default_config Noise.one 0) rfl).2.2.1,
      (trends_at_2002 (mk_row default_config noise_two 0) rfl).2.2.1]
    norm_num [mk_row, simulate_other_revenue, default_config, Noise.one, Noise.const, noise_two,
      year_of, start_year]
  · rw [row_at, row_at, trends_Depenses_Totales, trends_Depenses_Totales]
    norm_num [mk_row, simulate_total_expenses, default_config, Noise.one, Noise.const, noise_two,
      year_of, start_year]
  · rw [row_at, row_at, trends_Fonctionnement, trends_Fonctionnement]
    norm_num [mk_row, simulate_operating_expenses, default_config, Noise.one, Noise.const, noise_two,
      year_of, start_year]
  · rw [row_at, row_at, (trends_at_2002 (mk_row default_config Noise.one 0) rfl).2.1,
      (trends_at_2002 (mk_row default_config noise_two 0) rfl).2.1]
    norm_num [mk_row, simulate_investment_expenses, default_config, Noise.one, Noise.const, noise_two,
      year_of, start_year]
  · rw [row_at, row_at, trends_Charge_Dette, trends_Charge_Dette]
    norm_num [mk_row, simulate_debt_charges, default_config, Noise.one, Noise.const, noise_two,
      year_of, start_year]
  · rw [row_at, row_at, trends_Personnel, trends_Personnel]
    norm_num [mk_row, simulate_staff_costs, default_config, Noise.one, Noise.const, noise_two,
      year_of, start_year]
  · rw [row_at, row_at, trends_Epargne_Brute, trends_Epargne_Brute]
    norm_num [mk_row, simulate_gross_savings, default_config, Noise.one, Noise.const, noise_two,
      year_of, start_year]
  · rw [row_at, row_at, trends_Dette_Totale, trends_Dette_Totale]
    norm_num [mk_row, simulate_total_debt, default_config, Noise.one, Noise.const, noise_two,
      year_of, start_year]
  · rw [row_at, row_at, trends_Taux_Endettement, trends_Taux_Endettement]
    norm_num [mk_row, simulate_debt_ratio, default_config, Noise.one, Noise.const, noise_two,
      year_of, start_year]
  · rw [row_at, row_at, trends_Taux_Fiscalite, trends_Taux_Fiscalite]
    norm_num [mk_row, simulate_tax_rate, default_config, Noise.one, Noise.const, noise_two,
      year_of, start_year]
  · rw [row_at, row_at, (trends_at_2002 (mk_row default_config Noise.one 0) rfl).2.2.2.2.2.2.1,
      (trends_at_2002 (mk_row default_config noise_two 0) rfl).2.2.2.2.2.2.1]
    norm_num [mk_row, simulate_agriculture_investment, default_config, Noise.one, Noise.const, noise_two,
      year_of, start_year]
  · rw [row_at, row_at, (trends_at_2002 (mk_row default_config Noise.one 0) rfl).2.2.2.2.2.2.2,
      (trends_at_2002 (mk_row default_config noise_two 0) rfl).2.2.2.2.2.2.2]
    norm_num [mk_row, simulate_fishing_investment, default_config, Noise.one, Noise.const, noise_two,
      year_of, start_year]
  · rw [row_at, row_at, trends_Investissement_Transport, trends_Investissement_Transport]
    norm_num [mk_row, simulate_transport_investment, default_config, Noise.one, Noise.const, noise_two,
      year_of, start_year]
    split_ifs with h
    · exact absurd h (by decide)
    · norm_num
  · rw [row_at, row_at, (trends_at_2002 (mk_row default_config Noise.one 0) rfl).2.2.2.2.1,
      (trends_at_2002 (mk_row default_config noise_two 0) rfl).2.2.2.2.1]
    norm_num [mk_row, simulate_education_investment, default_config, Noise.one, Noise.const, noise_two,
      year_of, start_year]
    split_ifs with h
    · exact absurd h (by decide)
    · norm_num
  · rw [row_at, row_at, (trends_at_2002 (mk_row default_config Noise.one 0) rfl).2.2.2.2.2.1,
      (trends_at_2002 (mk_row default_config noise_two 0) rfl).2.2.2.2.2.1]
    norm_num [mk_row, simulate_health_investment, default_config, Noise.one, Noise.const, noise_two,
      year_of, start_year]
    split_ifs with h
    · exact absurd h (by decide)
    · norm_num
  · rw [row_at, row_at, trends_Investissement_Culture, trends_Investissement_Culture]
    norm_num [mk_row, simulate_culture_investment, default_config, Noise.one, Noise.const, noise_two,
      year_of, start_year]
    split_ifs with h
    · exact absurd h (by decide)
    · norm_num

end WFucom
